import Mathlib

/-!
Shallow embedding of `src/editor/src/objects.rs` from the abstreet editor:
the unified entity-identifier type `ID` with its three operations
(`agent_id`, `debug`, `canonical_point`) and the derived structural
equality / ordering / hashing.

Only `objects.rs` is in the repository sources; the collaborators it calls
(map_model's `Map`, sim's `Sim`, the render cache `DrawMap`, and the geom
crate) are modelled from the spec (sections 4 and 6), faithful to its words:
`maybe_get_<kind>` lookups return an option, `get_<kind>` lookups panic on
absence (modelled as `Except.error ()`), entity `dump_debug` calls and
`println!` output are modelled as an event trace, and the simulation debug
hooks may mutate internal simulation state.
-/

namespace AbStreet

/-- Modelled from the spec: a 2D point from the geom crate (not under src/).
The source uses f64 coordinates; the claims only propagate points, never
compute with them, so integer coordinates are used here. -/
structure Pt2D where
  x : Int
  y : Int
deriving DecidableEq, Repr

/-- Modelled from the spec: centroid of a polygon footprint (geom crate,
`Pt2D::center`, not under src/): the average of the points. -/
def Pt2D.center (pts : List Pt2D) : Pt2D :=
  let n : Int := Int.ofNat pts.length
  if n = 0 then ⟨0, 0⟩
  else ⟨(pts.map Pt2D.x).sum / n, (pts.map Pt2D.y).sum / n⟩

/-- Modelled from the spec: polyline geometry (geom crate, not under src/);
only its first and last points are consumed by `canonical_point`. -/
structure PolyLine where
  pts : List Pt2D
deriving DecidableEq, Repr

def PolyLine.first_pt (pl : PolyLine) : Pt2D := pl.pts.headD ⟨0, 0⟩

def PolyLine.last_pt (pl : PolyLine) : Pt2D := pl.pts.getLastD ⟨0, 0⟩

/-- Modelled from the spec: `map_model::TurnID` (not under src/): a compound
identifier carrying the parent intersection plus source and destination
lanes, ordered lexicographically field by field. -/
structure TurnID where
  parent : Nat
  src : Nat
  dst : Nat
deriving DecidableEq, Repr

/-- The closed tagged union over the 12 entity-kind identifiers, translated
from `enum ID` in `src/editor/src/objects.rs` (variant declaration order
preserved). All single-field inner identifiers are small integer newtypes in
the source and are modelled as `Nat`. -/
inductive ID
  | Road (id : Nat)
  | Lane (id : Nat)
  | Intersection (id : Nat)
  | Turn (id : TurnID)
  | Building (id : Nat)
  | Car (id : Nat)
  | Pedestrian (id : Nat)
  | ExtraShape (id : Nat)
  | Parcel (id : Nat)
  | BusStop (id : Nat)
  | Area (id : Nat)
  | Trip (id : Nat)
deriving DecidableEq, Repr

/-- Modelled from the spec: `sim::AgentID` (not under src/), the narrower
movable-agent identifier space. -/
inductive AgentID
  | Car (id : Nat)
  | Pedestrian (id : Nat)
deriving DecidableEq, Repr

/-- Translated from `ID::agent_id` in `src/editor/src/objects.rs`. -/
def ID.agent_id (i : ID) : Option AgentID :=
  match i with
  | ID.Car id => some (AgentID.Car id)
  | ID.Pedestrian id => some (AgentID.Pedestrian id)
  | _ => none

/-- Modelled from the spec: a map road entity; `canonical_point` reads the
first point of its original center-line geometry. -/
structure Road where
  original_center_pts : PolyLine
deriving DecidableEq, Repr

/-- Modelled from the spec: a map lane entity with its centerline. -/
structure Lane where
  lane_center_pts : PolyLine
deriving DecidableEq, Repr

def Lane.first_pt (l : Lane) : Pt2D := l.lane_center_pts.first_pt

/-- Modelled from the spec: a map intersection entity with its point. -/
structure Intersection where
  point : Pt2D
deriving DecidableEq, Repr

/-- Modelled from the spec: a map turn entity (only dumped, never anchored:
turns have no independent anchor point). -/
structure Turn where
  id : TurnID
deriving DecidableEq, Repr

/-- Modelled from the spec: a map building entity with its footprint. -/
structure Building where
  points : List Pt2D
deriving DecidableEq, Repr

/-- Modelled from the spec: a map parcel entity with its footprint. -/
structure Parcel where
  points : List Pt2D
deriving DecidableEq, Repr

/-- Modelled from the spec: a map area entity with its footprint. -/
structure Area where
  points : List Pt2D
deriving DecidableEq, Repr

/-- Modelled from the spec: a position on a sidewalk lane. The projection of
the stop onto its sidewalk is geometry outside src/, modelled as a stored
point; `pt` takes the map as in the source signature. -/
structure Position where
  lane : Nat
  projected : Pt2D
deriving DecidableEq, Repr

/-- Modelled from the spec: a map bus-stop entity with its sidewalk
position. -/
structure BusStop where
  sidewalk_pos : Position
deriving DecidableEq, Repr

/-- Modelled from the spec: an auxiliary render-cache shape, exposing
key/value attributes, an optional associated road, and a center point. -/
structure ExtraShape where
  attributes : List (String × String)
  road : Option Nat
  center : Pt2D
deriving DecidableEq, Repr

/-- Modelled from the spec: a parked vehicle record tracked by the
simulation, exposing the owning-agent car identifier. -/
structure ParkedCar where
  car : Nat
  spot : Nat
deriving DecidableEq, Repr

/-- Modelled from the spec: a live render snapshot of a car agent. -/
structure DrawCar where
  body : PolyLine
deriving DecidableEq, Repr

/-- Modelled from the spec: a live render snapshot of a pedestrian agent. -/
structure DrawPedestrian where
  pos : Pt2D
deriving DecidableEq, Repr

/-- Modelled from the spec (section 6): the static map store, exposing for
each entity kind an option-returning `maybe_get` lookup and a panicking
`get` lookup. Each store is a partial function from identifier to entity;
`none` means the entity does not (or no longer does) exist. -/
structure Map where
  roads : Nat → Option Road
  lanes : Nat → Option Lane
  intersections : Nat → Option Intersection
  turns : TurnID → Option Turn
  buildings : Nat → Option Building
  parcels : Nat → Option Parcel
  bus_stops : Nat → Option BusStop
  areas : Nat → Option Area

def Map.maybe_get_r (m : Map) (id : Nat) : Option Road := m.roads id

def Map.maybe_get_l (m : Map) (id : Nat) : Option Lane := m.lanes id

def Map.maybe_get_i (m : Map) (id : Nat) : Option Intersection := m.intersections id

def Map.maybe_get_b (m : Map) (id : Nat) : Option Building := m.buildings id

def Map.maybe_get_p (m : Map) (id : Nat) : Option Parcel := m.parcels id

def Map.maybe_get_bs (m : Map) (id : Nat) : Option BusStop := m.bus_stops id

def Map.maybe_get_a (m : Map) (id : Nat) : Option Area := m.areas id

/-- Modelled from the spec: the panicking map lookup; a panic is modelled
as `Except.error ()`. -/
def Map.get_r (m : Map) (id : Nat) : Except Unit Road :=
  match m.roads id with
  | some r => Except.ok r
  | none => Except.error ()

def Map.get_l (m : Map) (id : Nat) : Except Unit Lane :=
  match m.lanes id with
  | some l => Except.ok l
  | none => Except.error ()

def Map.get_i (m : Map) (id : Nat) : Except Unit Intersection :=
  match m.intersections id with
  | some i => Except.ok i
  | none => Except.error ()

def Map.get_t (m : Map) (id : TurnID) : Except Unit Turn :=
  match m.turns id with
  | some t => Except.ok t
  | none => Except.error ()

def Map.get_b (m : Map) (id : Nat) : Except Unit Building :=
  match m.buildings id with
  | some b => Except.ok b
  | none => Except.error ()

def Map.get_p (m : Map) (id : Nat) : Except Unit Parcel :=
  match m.parcels id with
  | some p => Except.ok p
  | none => Except.error ()

def Map.get_bs (m : Map) (id : Nat) : Except Unit BusStop :=
  match m.bus_stops id with
  | some bs => Except.ok bs
  | none => Except.error ()

def Map.get_a (m : Map) (id : Nat) : Except Unit Area :=
  match m.areas id with
  | some a => Except.ok a
  | none => Except.error ()

/-- Modelled from the spec: the sidewalk position of a stop; the source
computes `sidewalk_pos.pt(map)` from map geometry outside src/, modelled as
the stored projected point. -/
def Position.pt (p : Position) (_m : Map) : Pt2D := p.projected

/-- Modelled from the spec: the render cache, storing auxiliary shapes by
identifier. -/
structure DrawMap where
  extra_shapes : Nat → Option ExtraShape

/-- Modelled from the spec: `DrawMap::get_es` is the unconditional
(panicking) shape lookup — the source marks `// TODO maybe_get_es`, so no
option-returning variant exists; absence panics, modelled as
`Except.error ()`. -/
def DrawMap.get_es (dm : DrawMap) (id : Nat) : Except Unit ExtraShape :=
  match dm.extra_shapes id with
  | some es => Except.ok es
  | none => Except.error ()

/-- An observable effect of `ID::debug`: either a collaborator-side dump of
a looked-up entity, a simulation-side debug hook invocation, or a direct
`println!` from `objects.rs` itself. -/
inductive Event
  | dumpRoad (r : Road)
  | dumpLane (l : Lane)
  | dumpIntersection (i : Intersection)
  | simDebugIntersection (id : Nat)
  | dumpTurn (t : Turn)
  | dumpBuilding (b : Building)
  | printParkedCars (count : Nat) (owner : Nat) (cars : List Nat)
  | simDebugCar (id : Nat)
  | simDebugPed (id : Nat)
  | printAttribute (k : String) (v : String)
  | printAssociatedRoad (r : Option Nat)
  | dumpParcel (p : Parcel)
  | dumpBusStop (bs : BusStop)
  | dumpArea (a : Area)
  | simDebugTrip (id : Nat)
deriving DecidableEq, Repr

/-- Modelled from the spec (section 6): the simulation engine's query
surface. `debug_log` stands for the simulation's internal caches that its
debug hooks may mutate. -/
structure Sim where
  draw_cars : Nat → Option DrawCar
  draw_peds : Nat → Option DrawPedestrian
  parked_cars : Nat → List ParkedCar
  trip_pts : Nat → Option Pt2D
  debug_log : List ID

/-- Modelled from the spec: the simulation's per-car debug hook
(`Sim::debug_car`, not under src/); it may compute and cache internally,
modelled as recording the debugged id. -/
def Sim.debug_car (s : Sim) (id : Nat) : List Event × Sim :=
  ([Event.simDebugCar id], { s with debug_log := ID.Car id :: s.debug_log })

/-- Modelled from the spec: the simulation's per-pedestrian debug hook. -/
def Sim.debug_ped (s : Sim) (id : Nat) : List Event × Sim :=
  ([Event.simDebugPed id], { s with debug_log := ID.Pedestrian id :: s.debug_log })

/-- Modelled from the spec: the simulation's per-intersection debug hook,
keyed by the intersection id (the map argument mirrors the source
signature). -/
def Sim.debug_intersection (s : Sim) (id : Nat) (_m : Map) : List Event × Sim :=
  ([Event.simDebugIntersection id], { s with debug_log := ID.Intersection id :: s.debug_log })

/-- Modelled from the spec: the simulation's per-trip debug hook. -/
def Sim.debug_trip (s : Sim) (id : Nat) : List Event × Sim :=
  ([Event.simDebugTrip id], { s with debug_log := ID.Trip id :: s.debug_log })

/-- Modelled from the spec: query for the simulation-tracked parked
vehicles owned by a building, in the order the simulation returns them. -/
def Sim.get_parked_cars_by_owner (s : Sim) (id : Nat) : List ParkedCar :=
  s.parked_cars id

/-- Modelled from the spec: query for a live render snapshot of a car by
id; absence means the agent is not currently active. -/
def Sim.get_draw_car (s : Sim) (id : Nat) (_m : Map) : Option DrawCar :=
  s.draw_cars id

/-- Modelled from the spec: query for a live render snapshot of a
pedestrian by id. -/
def Sim.get_draw_ped (s : Sim) (id : Nat) (_m : Map) : Option DrawPedestrian :=
  s.draw_peds id

/-- Modelled from the spec: the simulation computes a canonical point for a
trip (current agent position if active, else a fallback), or absence. -/
def Sim.get_canonical_pt_per_trip (s : Sim) (id : Nat) (_m : Map) : Option Pt2D :=
  s.trip_pts id

/-- Translated from `ID::debug` in `src/editor/src/objects.rs`. The printed
diagnostic report is modelled as a trace of events; the possibly-mutated
simulation is returned; a panicking lookup on an absent entity is
`Except.error ()`. -/
def ID.debug (i : ID) (map : Map) (sim : Sim) (draw_map : DrawMap) :
    Except Unit (List Event × Sim) :=
  match i with
  | ID.Road id => (map.get_r id).map (fun r => ([Event.dumpRoad r], sim))
  | ID.Lane id => (map.get_l id).map (fun l => ([Event.dumpLane l], sim))
  | ID.Intersection id => (map.get_i id).map (fun i0 =>
      let r := sim.debug_intersection id map
      (Event.dumpIntersection i0 :: r.1, r.2))
  | ID.Turn id => (map.get_t id).map (fun t => ([Event.dumpTurn t], sim))
  | ID.Building id => (map.get_b id).map (fun b =>
      let parked_cars := sim.get_parked_cars_by_owner id
      ([Event.dumpBuilding b,
        Event.printParkedCars parked_cars.length id (parked_cars.map (fun p => p.car))],
       sim))
  | ID.Car id => Except.ok (sim.debug_car id)
  | ID.Pedestrian id => Except.ok (sim.debug_ped id)
  | ID.ExtraShape id => (draw_map.get_es id).map (fun es =>
      (es.attributes.map (fun kv => Event.printAttribute kv.1 kv.2) ++
        [Event.printAssociatedRoad es.road], sim))
  | ID.Parcel id => (map.get_p id).map (fun p => ([Event.dumpParcel p], sim))
  | ID.BusStop id => (map.get_bs id).map (fun bs => ([Event.dumpBusStop bs], sim))
  | ID.Area id => (map.get_a id).map (fun a => ([Event.dumpArea a], sim))
  | ID.Trip id => Except.ok (sim.debug_trip id)

/-- Translated from `ID::canonical_point` in `src/editor/src/objects.rs`.
Every arm returns `Except.ok` of an option except ExtraShape, which goes
through the panicking `get_es` (the source's `// TODO maybe_get_es`). -/
def ID.canonical_point (i : ID) (map : Map) (sim : Sim) (draw_map : DrawMap) :
    Except Unit (Option Pt2D) :=
  match i with
  | ID.Road id => Except.ok ((map.maybe_get_r id).map (fun r => r.original_center_pts.first_pt))
  | ID.Lane id => Except.ok ((map.maybe_get_l id).map (fun l => l.first_pt))
  | ID.Intersection id => Except.ok ((map.maybe_get_i id).map (fun i0 => i0.point))
  | ID.Turn id => Except.ok ((map.maybe_get_i id.parent).map (fun i0 => i0.point))
  | ID.Building id => Except.ok ((map.maybe_get_b id).map (fun b => Pt2D.center b.points))
  | ID.Car id => Except.ok ((sim.get_draw_car id map).map (fun c => c.body.last_pt))
  | ID.Pedestrian id => Except.ok ((sim.get_draw_ped id map).map (fun p => p.pos))
  | ID.ExtraShape id => (draw_map.get_es id).map (fun es => some es.center)
  | ID.Parcel id => Except.ok ((map.maybe_get_p id).map (fun p => Pt2D.center p.points))
  | ID.BusStop id => Except.ok ((map.maybe_get_bs id).map (fun bs => bs.sidewalk_pos.pt map))
  | ID.Area id => Except.ok ((map.maybe_get_a id).map (fun a => Pt2D.center a.points))
  | ID.Trip id => Except.ok (sim.get_canonical_pt_per_trip id map)

/-- The discriminant of an `ID` value in declaration order (Road = 0 ..
Trip = 11), as used by the derived `PartialOrd`/`Ord` in the source. -/
def ID.tag (i : ID) : Nat :=
  match i with
  | ID.Road _ => 0
  | ID.Lane _ => 1
  | ID.Intersection _ => 2
  | ID.Turn _ => 3
  | ID.Building _ => 4
  | ID.Car _ => 5
  | ID.Pedestrian _ => 6
  | ID.ExtraShape _ => 7
  | ID.Parcel _ => 8
  | ID.BusStop _ => 9
  | ID.Area _ => 10
  | ID.Trip _ => 11

/-- The inner identifier of an `ID` value, padded to a triple so that the
compound `TurnID` (parent, src, dst) and the single-integer identifiers
live in one type; lexicographic comparison of the triple is exactly the
derived field-by-field `Ord` of the payload. -/
def ID.innerRaw (i : ID) : Nat × Nat × Nat :=
  match i with
  | ID.Road id => (id, 0, 0)
  | ID.Lane id => (id, 0, 0)
  | ID.Intersection id => (id, 0, 0)
  | ID.Turn t => (t.parent, t.src, t.dst)
  | ID.Building id => (id, 0, 0)
  | ID.Car id => (id, 0, 0)
  | ID.Pedestrian id => (id, 0, 0)
  | ID.ExtraShape id => (id, 0, 0)
  | ID.Parcel id => (id, 0, 0)
  | ID.BusStop id => (id, 0, 0)
  | ID.Area id => (id, 0, 0)
  | ID.Trip id => (id, 0, 0)

/-- The inner identifier under the lexicographic order. -/
def ID.innerKey (i : ID) : Lex (Nat × Lex (Nat × Nat)) :=
  toLex ((ID.innerRaw i).1, toLex ((ID.innerRaw i).2.1, (ID.innerRaw i).2.2))

/-- The comparison key of the derived `Ord` on `ID`: discriminant first (in
declaration order), then the payload fields, all lexicographically. -/
def ID.key (i : ID) : Lex (Nat × Lex (Nat × Lex (Nat × Nat))) :=
  toLex (ID.tag i, ID.innerKey i)

/-- The strict order of the derived `Ord` on `ID`. -/
def ID.lt (a b : ID) : Prop := ID.key a < ID.key b

instance : DecidableRel ID.lt := fun a b =>
  inferInstanceAs (Decidable (ID.key a < ID.key b))

/-- Modelled from the derived `Hash` on `ID`: the hasher consumes the
discriminant and then the payload fields, so the hash value is a function
of exactly that data; a concrete polynomial mixing function stands for the
hasher. -/
def ID.hashVal (i : ID) : Nat :=
  ((ID.tag i * 1000003 + (ID.innerRaw i).1) * 1000003 + (ID.innerRaw i).2.1) * 1000003 +
    (ID.innerRaw i).2.2

/-- The store consulted by `ID::canonical_point` for this identifier is
empty at it: this is the "referenced entity no longer exists in its owning
store" condition of the spec, per variant (for a Turn the resolver consults
the parent intersection, which is the turn's only anchor). -/
def ID.refAbsent (i : ID) (map : Map) (sim : Sim) (draw_map : DrawMap) : Prop :=
  match i with
  | ID.Road id => map.roads id = none
  | ID.Lane id => map.lanes id = none
  | ID.Intersection id => map.intersections id = none
  | ID.Turn t => map.intersections t.parent = none
  | ID.Building id => map.buildings id = none
  | ID.Car id => sim.draw_cars id = none
  | ID.Pedestrian id => sim.draw_peds id = none
  | ID.ExtraShape id => draw_map.extra_shapes id = none
  | ID.Parcel id => map.parcels id = none
  | ID.BusStop id => map.bus_stops id = none
  | ID.Area id => map.areas id = none
  | ID.Trip id => sim.trip_pts id = none

/-- The six variants whose `debug` arm is the map's unconditional
lookup-and-dump with no simulation involvement. -/
def ID.isMapDumpFamily (i : ID) : Prop :=
  match i with
  | ID.Road _ => True
  | ID.Lane _ => True
  | ID.Turn _ => True
  | ID.Parcel _ => True
  | ID.BusStop _ => True
  | ID.Area _ => True
  | _ => False

/-! Concrete collaborator states used to evaluate the operations. -/

def emptyMap : Map where
  roads := fun _ => none
  lanes := fun _ => none
  intersections := fun _ => none
  turns := fun _ => none
  buildings := fun _ => none
  parcels := fun _ => none
  bus_stops := fun _ => none
  areas := fun _ => none

def emptySim : Sim where
  draw_cars := fun _ => none
  draw_peds := fun _ => none
  parked_cars := fun _ => []
  trip_pts := fun _ => none
  debug_log := []

def emptyDrawMap : DrawMap where
  extra_shapes := fun _ => none

def road0 : Road := ⟨⟨[⟨0, 0⟩, ⟨4, 0⟩]⟩⟩

def building7 : Building := ⟨[⟨1, 1⟩, ⟨3, 1⟩, ⟨2, 4⟩]⟩

/-- A shape whose associated road (road 3) does not exist in `sampleMap`:
a dangling association. -/
def shape0 : ExtraShape := ⟨[("kind", "fence")], some 3, ⟨5, 5⟩⟩

def sampleMap : Map where
  roads := fun n => if n = 0 then some road0 else none
  lanes := fun _ => none
  intersections := fun _ => none
  turns := fun _ => none
  buildings := fun n => if n = 7 then some building7 else none
  parcels := fun _ => none
  bus_stops := fun _ => none
  areas := fun _ => none

/-- Building 7 owns two parked cars, with owning-agent car ids 3 and 9, in
that order. -/
def sampleSim : Sim where
  draw_cars := fun _ => none
  draw_peds := fun _ => none
  parked_cars := fun n => if n = 7 then [⟨3, 0⟩, ⟨9, 1⟩] else []
  trip_pts := fun _ => none
  debug_log := []

def sampleDrawMap : DrawMap where
  extra_shapes := fun n => if n = 0 then some shape0 else none

/-! Helper lemmas shared by the claim theorems. -/

theorem ID.key_inj : ∀ a b : ID, ID.key a = ID.key b → a = b := by
  intro a b h
  cases a <;> cases b <;>
    simp [ID.key, ID.innerKey, ID.innerRaw, ID.tag, Prod.mk.injEq] at h <;>
    simp_all
  rename_i t1 t2
  obtain ⟨p1, s1, d1⟩ := t1
  obtain ⟨p2, s2, d2⟩ := t2
  simp_all

/-- C2: for every EntityId value, `agent_id` returns `Some` exactly when
the variant is Car or Pedestrian — `some (AgentID.Car c)` for `ID.Car c`
and `some (AgentID.Pedestrian p)` for `ID.Pedestrian p`, with the wrapped
inner identifier unchanged — and returns `none` for each of the other ten
variants. The Lean embedding is a total function, so purity and totality
hold by construction. -/
theorem agent_id_some_iff_agent :
    (∀ c, (ID.Car c).agent_id = some (AgentID.Car c)) ∧
    (∀ p, (ID.Pedestrian p).agent_id = some (AgentID.Pedestrian p)) ∧
    (∀ n, (ID.Road n).agent_id = none) ∧
    (∀ n, (ID.Lane n).agent_id = none) ∧
    (∀ n, (ID.Intersection n).agent_id = none) ∧
    (∀ t, (ID.Turn t).agent_id = none) ∧
    (∀ n, (ID.Building n).agent_id = none) ∧
    (∀ n, (ID.ExtraShape n).agent_id = none) ∧
    (∀ n, (ID.Parcel n).agent_id = none) ∧
    (∀ n, (ID.BusStop n).agent_id = none) ∧
    (∀ n, (ID.Area n).agent_id = none) ∧
    (∀ n, (ID.Trip n).agent_id = none) ∧
    (∀ i : ID, (i.agent_id).isSome ↔
      (∃ c, i = ID.Car c) ∨ (∃ p, i = ID.Pedestrian p)) := by
  refine ⟨fun _ => rfl, fun _ => rfl, fun _ => rfl, fun _ => rfl, fun _ => rfl,
    fun _ => rfl, fun _ => rfl, fun _ => rfl, fun _ => rfl, fun _ => rfl,
    fun _ => rfl, fun _ => rfl, fun i => ?_⟩
  cases i <;> simp [ID.agent_id]

/-- C3: equality, ordering, and hashing on EntityId are structural over
(variant tag, inner id) and mutually consistent: equal values hash equal;
the derived strict order is irreflexive, transitive, total, asymmetric
(hence compatible with equality), orders first by the variant tag in
declaration order Road..Trip, and for equal tags by the inner identifier. -/
theorem id_order_hash_consistent :
    (∀ a b : ID, a = b → ID.hashVal a = ID.hashVal b) ∧
    (∀ a : ID, ¬ ID.lt a a) ∧
    (∀ a b c : ID, ID.lt a b → ID.lt b c → ID.lt a c) ∧
    (∀ a b : ID, ID.lt a b ∨ a = b ∨ ID.lt b a) ∧
    (∀ a b : ID, ID.lt a b → ¬ ID.lt b a) ∧
    (∀ a b : ID, ID.tag a < ID.tag b → ID.lt a b) ∧
    (∀ a b : ID, ID.tag a = ID.tag b →
      (ID.lt a b ↔ ID.innerKey a < ID.innerKey b)) := by
  refine ⟨fun a b h => h ▸ rfl, fun a => lt_irrefl _, fun a b c => lt_trans,
    fun a b => ?_, fun a b h h2 => absurd h2 (lt_asymm h), fun a b h => ?_,
    fun a b h => ?_⟩
  · rcases lt_trichotomy (ID.key a) (ID.key b) with h | h | h
    · exact Or.inl h
    · exact Or.inr (Or.inl (ID.key_inj a b h))
    · exact Or.inr (Or.inr h)
  · simp only [ID.lt, ID.key, Prod.Lex.lt_iff]
    exact Or.inl h
  · simp [ID.lt, ID.key, Prod.Lex.lt_iff, h]

/-- C3 witness: concrete instances of the order and hash consistency
properties — equal values hash equal, the variant-tag order places Road
before Lane before Trip, transitivity and asymmetry hold at those values,
and for equal tags the order is the inner-id order. -/
theorem id_order_hash_consistent_witness :
    ID.hashVal (ID.Car 4) = ID.hashVal (ID.Car 4) ∧
    ID.lt (ID.Road 1) (ID.Lane 0) ∧
    ID.lt (ID.Lane 0) (ID.Trip 2) ∧
    ID.lt (ID.Road 1) (ID.Trip 2) ∧
    ¬ ID.lt (ID.Trip 2) (ID.Road 1) ∧
    (ID.lt (ID.Road 0) (ID.Road 1) ↔
      ID.innerKey (ID.Road 0) < ID.innerKey (ID.Road 1)) := by
  have h := id_order_hash_consistent
  have l1 : ID.lt (ID.Road 1) (ID.Lane 0) :=
    h.2.2.2.2.2.1 (ID.Road 1) (ID.Lane 0) (by decide)
  have l2 : ID.lt (ID.Lane 0) (ID.Trip 2) :=
    h.2.2.2.2.2.1 (ID.Lane 0) (ID.Trip 2) (by decide)
  have l3 : ID.lt (ID.Road 1) (ID.Trip 2) :=
    h.2.2.1 (ID.Road 1) (ID.Lane 0) (ID.Trip 2) l1 l2
  exact ⟨h.1 (ID.Car 4) (ID.Car 4) rfl, l1, l2, l3,
    h.2.2.2.2.1 (ID.Road 1) (ID.Trip 2) l3,
    h.2.2.2.2.2.2 (ID.Road 0) (ID.Road 1) rfl⟩

/-- C4: for every Turn id and all collaborator states, the canonical point
of the turn equals the canonical point of its parent intersection. -/
theorem canonical_point_turn_eq_parent :
    ∀ (t : TurnID) (map : Map) (sim : Sim) (draw_map : DrawMap),
      (ID.Turn t).canonical_point map sim draw_map =
        (ID.Intersection t.parent).canonical_point map sim draw_map := by
  intro t map sim draw_map
  rfl

/-- C5: for every ExtraShape id, `canonical_point` never produces the
absence value `ok none`; when the shape is in the render cache it returns
the shape's geometric center; and the result is independent of the map and
the simulation, hence unchanged even when the shape's associated road no
longer exists in the map. -/
theorem canonical_point_extra_shape_center :
    ∀ (id : Nat) (map map2 : Map) (sim sim2 : Sim) (draw_map : DrawMap),
      ((ID.ExtraShape id).canonical_point map sim draw_map ≠ Except.ok none) ∧
      (∀ es, draw_map.extra_shapes id = some es →
        (ID.ExtraShape id).canonical_point map sim draw_map =
          Except.ok (some es.center)) ∧
      ((ID.ExtraShape id).canonical_point map sim draw_map =
        (ID.ExtraShape id).canonical_point map2 sim2 draw_map) := by
  intro id map map2 sim sim2 draw_map
  refine ⟨?_, ?_, rfl⟩
  · cases h : draw_map.extra_shapes id <;>
      simp [ID.canonical_point, DrawMap.get_es, h, Except.map]
  · intro es h
    simp [ID.canonical_point, DrawMap.get_es, h, Except.map]

/-- C5 witness: shape 0 is in the sample render cache, its associated road
(road 3) does not exist in the sample map, and its canonical point is its
stored center. -/
theorem canonical_point_extra_shape_center_witness :
    sampleDrawMap.extra_shapes 0 = some shape0 ∧
    shape0.road = some 3 ∧
    sampleMap.roads 3 = none ∧
    (ID.ExtraShape 0).canonical_point sampleMap sampleSim sampleDrawMap =
      Except.ok (some ⟨5, 5⟩) :=
  ⟨rfl, rfl, rfl,
    (canonical_point_extra_shape_center 0 sampleMap sampleMap sampleSim
      sampleSim sampleDrawMap).2.1 shape0 rfl⟩

/-- C1 counterexample: the claim "for every EntityId whose referenced
entity no longer exists in its owning store, `canonical_point` returns
None rather than failing" is false at `ID.ExtraShape 5` with the sample
states: shape 5 is absent from the render cache, yet `canonical_point`
fails (panicking `get_es`) instead of returning the absence value. -/
theorem canonical_point_stale_counterexample :
    ID.refAbsent (ID.ExtraShape 5) sampleMap sampleSim sampleDrawMap ∧
    (ID.ExtraShape 5).canonical_point sampleMap sampleSim sampleDrawMap =
      Except.error () :=
  ⟨rfl, rfl⟩

/-- C1 amended: for every EntityId other than an ExtraShape id, if the
entity the resolver consults no longer exists in its owning store (for a
Turn, the parent intersection — the turn's only anchor), `canonical_point`
returns the absence value `ok none` and never fails; in particular a Car
or Pedestrian id no longer tracked by the simulation resolves to absence,
not an error or abort. -/
theorem canonical_point_stale_returns_none :
    ∀ (i : ID) (map : Map) (sim : Sim) (draw_map : DrawMap),
      (∀ n, i ≠ ID.ExtraShape n) →
      i.refAbsent map sim draw_map →
      i.canonical_point map sim draw_map = Except.ok none := by
  intro i map sim draw_map hne habs
  cases i <;>
    simp_all [ID.refAbsent, ID.canonical_point, Map.maybe_get_r, Map.maybe_get_l,
      Map.maybe_get_i, Map.maybe_get_b, Map.maybe_get_p, Map.maybe_get_bs,
      Map.maybe_get_a, Sim.get_draw_car, Sim.get_draw_ped,
      Sim.get_canonical_pt_per_trip]

/-- C1 witness: car 5 is not tracked by the sample simulation (a despawned
agent), and its canonical point is the absence value, not a failure. -/
theorem canonical_point_stale_returns_none_witness :
    ID.refAbsent (ID.Car 5) sampleMap sampleSim sampleDrawMap ∧
    (ID.Car 5).canonical_point sampleMap sampleSim sampleDrawMap =
      Except.ok none :=
  ⟨rfl, canonical_point_stale_returns_none (ID.Car 5) sampleMap sampleSim
    sampleDrawMap (fun _ h => ID.noConfusion h) rfl⟩

/-- C6: for every Building id denoting an existing building, `debug` dumps
the building from the map and prints the number of simulation-tracked
parked vehicles owned by it together with the list of their car ids, in
the order the simulation returns them; the simulation is not mutated. -/
theorem debug_building_reports_parked_cars :
    ∀ (map : Map) (sim : Sim) (draw_map : DrawMap) (id : Nat) (b : Building),
      map.buildings id = some b →
      (ID.Building id).debug map sim draw_map =
        Except.ok ([Event.dumpBuilding b,
          Event.printParkedCars (sim.parked_cars id).length id
            ((sim.parked_cars id).map (fun p => p.car))], sim) := by
  intro map sim draw_map id b h
  simp [ID.debug, Map.get_b, h, Sim.get_parked_cars_by_owner, Except.map]

/-- C6 witness: building 7 exists in the sample map and owns the parked
cars with ids 3 and 9 in the sample simulation; the debug report states
count 2 and the list [3, 9] in that order. -/
theorem debug_building_reports_parked_cars_witness :
    sampleMap.buildings 7 = some building7 ∧
    sampleSim.parked_cars 7 = [⟨3, 0⟩, ⟨9, 1⟩] ∧
    (ID.Building 7).debug sampleMap sampleSim sampleDrawMap =
      Except.ok ([Event.dumpBuilding building7,
        Event.printParkedCars 2 7 [3, 9]], sampleSim) :=
  ⟨rfl, rfl,
    debug_building_reports_parked_cars sampleMap sampleSim sampleDrawMap 7
      building7 rfl⟩

/-- C7: for the Road, Lane, Turn, Parcel, BusStop and Area variants,
`debug` performs the map's unconditional lookup-and-dump for that kind
when the identifier denotes an existing map entity, and fails loudly
(the panicking lookup aborts) when the entity is absent. -/
theorem debug_map_family_lookup_and_dump :
    ∀ (map : Map) (sim : Sim) (draw_map : DrawMap),
      (∀ id r, map.roads id = some r →
        (ID.Road id).debug map sim draw_map = Except.ok ([Event.dumpRoad r], sim)) ∧
      (∀ id, map.roads id = none →
        (ID.Road id).debug map sim draw_map = Except.error ()) ∧
      (∀ id l, map.lanes id = some l →
        (ID.Lane id).debug map sim draw_map = Except.ok ([Event.dumpLane l], sim)) ∧
      (∀ id, map.lanes id = none →
        (ID.Lane id).debug map sim draw_map = Except.error ()) ∧
      (∀ id t, map.turns id = some t →
        (ID.Turn id).debug map sim draw_map = Except.ok ([Event.dumpTurn t], sim)) ∧
      (∀ id, map.turns id = none →
        (ID.Turn id).debug map sim draw_map = Except.error ()) ∧
      (∀ id p, map.parcels id = some p →
        (ID.Parcel id).debug map sim draw_map = Except.ok ([Event.dumpParcel p], sim)) ∧
      (∀ id, map.parcels id = none →
        (ID.Parcel id).debug map sim draw_map = Except.error ()) ∧
      (∀ id bs, map.bus_stops id = some bs →
        (ID.BusStop id).debug map sim draw_map = Except.ok ([Event.dumpBusStop bs], sim)) ∧
      (∀ id, map.bus_stops id = none →
        (ID.BusStop id).debug map sim draw_map = Except.error ()) ∧
      (∀ id a, map.areas id = some a →
        (ID.Area id).debug map sim draw_map = Except.ok ([Event.dumpArea a], sim)) ∧
      (∀ id, map.areas id = none →
        (ID.Area id).debug map sim draw_map = Except.error ()) := by
  intro map sim draw_map
  refine ⟨?_, ?_, ?_, ?_, ?_, ?_, ?_, ?_, ?_, ?_, ?_, ?_⟩ <;> intro id <;>
    first
      | (intro e h
         simp [ID.debug, Map.get_r, Map.get_l, Map.get_t, Map.get_p,
           Map.get_bs, Map.get_a, h, Except.map])
      | (intro h
         simp [ID.debug, Map.get_r, Map.get_l, Map.get_t, Map.get_p,
           Map.get_bs, Map.get_a, h, Except.map])

/-- C7 witness: road 0 exists in the sample map and its debug call dumps
it; lane 99 does not exist and its debug call aborts. -/
theorem debug_map_family_lookup_and_dump_witness :
    sampleMap.roads 0 = some road0 ∧
    sampleMap.lanes 99 = none ∧
    (ID.Road 0).debug sampleMap sampleSim sampleDrawMap =
      Except.ok ([Event.dumpRoad road0], sampleSim) ∧
    (ID.Lane 99).debug sampleMap sampleSim sampleDrawMap = Except.error () :=
  ⟨rfl, rfl,
    (debug_map_family_lookup_and_dump sampleMap sampleSim sampleDrawMap).1 0
      road0 rfl,
    (debug_map_family_lookup_and_dump sampleMap sampleSim
      sampleDrawMap).2.2.2.1 99 rfl⟩

/-- C8: for every Car or Pedestrian id, `debug` delegates entirely to the
simulation's per-agent debug hook (`debug_car` for Car, `debug_ped` for
Pedestrian): the result is exactly the hook's trace and mutated
simulation, the trace holds only the simulation-side event (no map dump),
and the result is independent of the map and the render cache (no map
lookup). -/
theorem debug_agents_delegate_to_sim :
    ∀ (map map2 : Map) (sim : Sim) (draw_map draw_map2 : DrawMap) (c p : Nat),
      ((ID.Car c).debug map sim draw_map = Except.ok (sim.debug_car c)) ∧
      ((ID.Pedestrian p).debug map sim draw_map =
        Except.ok (sim.debug_ped p)) ∧
      ((ID.Car c).debug map sim draw_map =
        Except.ok ([Event.simDebugCar c],
          { sim with debug_log := ID.Car c :: sim.debug_log })) ∧
      ((ID.Pedestrian p).debug map sim draw_map =
        Except.ok ([Event.simDebugPed p],
          { sim with debug_log := ID.Pedestrian p :: sim.debug_log })) ∧
      ((ID.Car c).debug map sim draw_map = (ID.Car c).debug map2 sim draw_map2) ∧
      ((ID.Pedestrian p).debug map sim draw_map =
        (ID.Pedestrian p).debug map2 sim draw_map2) := by
  intro map map2 sim draw_map draw_map2 c p
  exact ⟨rfl, rfl, rfl, rfl, rfl, rfl⟩

/-- C9: for the Road, Lane, Turn, Parcel, BusStop and Area variants,
`debug` neither reads nor mutates the simulation or the render cache: its
outcome and trace are unchanged under any replacement of the simulation or
the render cache, and on success the simulation it returns is exactly the
one it was given. -/
theorem debug_map_family_preserves_sim :
    ∀ (i : ID), ID.isMapDumpFamily i →
      ∀ (map : Map) (sim sim2 : Sim) (draw_map draw_map2 : DrawMap),
        (i.debug map sim draw_map =
          Except.map (fun r => (r.1, sim)) (i.debug map sim2 draw_map)) ∧
        (i.debug map sim draw_map = i.debug map sim draw_map2) := by
  intro i hi map sim sim2 draw_map draw_map2
  cases i
  case Road id =>
    refine ⟨?_, rfl⟩
    cases h : map.roads id <;> simp [ID.debug, Map.get_r, h, Except.map]
  case Lane id =>
    refine ⟨?_, rfl⟩
    cases h : map.lanes id <;> simp [ID.debug, Map.get_l, h, Except.map]
  case Turn id =>
    refine ⟨?_, rfl⟩
    cases h : map.turns id <;> simp [ID.debug, Map.get_t, h, Except.map]
  case Parcel id =>
    refine ⟨?_, rfl⟩
    cases h : map.parcels id <;> simp [ID.debug, Map.get_p, h, Except.map]
  case BusStop id =>
    refine ⟨?_, rfl⟩
    cases h : map.bus_stops id <;> simp [ID.debug, Map.get_bs, h, Except.map]
  case Area id =>
    refine ⟨?_, rfl⟩
    cases h : map.areas id <;> simp [ID.debug, Map.get_a, h, Except.map]
  all_goals exact hi.elim

/-- C9 witness: debugging road 0 gives the same trace whatever simulation
or render cache is supplied, and returns the given simulation unchanged. -/
theorem debug_map_family_preserves_sim_witness :
    ID.isMapDumpFamily (ID.Road 0) ∧
    ((ID.Road 0).debug sampleMap sampleSim sampleDrawMap =
      Except.map (fun r => (r.1, sampleSim))
        ((ID.Road 0).debug sampleMap emptySim sampleDrawMap)) ∧
    ((ID.Road 0).debug sampleMap sampleSim sampleDrawMap =
      (ID.Road 0).debug sampleMap sampleSim emptyDrawMap) :=
  ⟨trivial,
    (debug_map_family_preserves_sim (ID.Road 0) trivial sampleMap sampleSim
      emptySim sampleDrawMap emptyDrawMap).1,
    (debug_map_family_preserves_sim (ID.Road 0) trivial sampleMap sampleSim
      sampleSim sampleDrawMap emptyDrawMap).2⟩

/-- C10: `canonical_point` on an ExtraShape id goes through the same
panicking `get_es` lookup the debug path uses, so for a shape id absent
from the render cache both calls abort instead of returning the absence
value: the fail-soft resolution policy does not cover ExtraShape
existence. -/
theorem canonical_point_extra_shape_absent_aborts :
    ∀ (id : Nat) (map : Map) (sim : Sim) (draw_map : DrawMap),
      draw_map.extra_shapes id = none →
      (ID.ExtraShape id).canonical_point map sim draw_map = Except.error () ∧
      (ID.ExtraShape id).debug map sim draw_map = Except.error () := by
  intro id map sim draw_map h
  constructor <;> simp [ID.canonical_point, ID.debug, DrawMap.get_es, h, Except.map]

/-- C10 witness: shape 1 is absent from the sample render cache; both the
resolution path and the debug path abort on it. -/
theorem canonical_point_extra_shape_absent_aborts_witness :
    sampleDrawMap.extra_shapes 1 = none ∧
    (ID.ExtraShape 1).canonical_point sampleMap sampleSim sampleDrawMap =
      Except.error () ∧
    (ID.ExtraShape 1).debug sampleMap sampleSim sampleDrawMap =
      Except.error () :=
  ⟨rfl,
    (canonical_point_extra_shape_absent_aborts 1 sampleMap sampleSim
      sampleDrawMap rfl).1,
    (canonical_point_extra_shape_absent_aborts 1 sampleMap sampleSim
      sampleDrawMap rfl).2⟩

end AbStreet
